import Mathlib

/-!
# Verification of the Zero-Click-CRM transcript-analysis core

Shallow embedding of `backend/app/services/crm_agent.py` (class `CRMAgent`)
together with the `ExtractedData` schema from `backend/app/schemas/crm.py`.

Modelling conventions:
* Python strings are Lean `String`s; slicing, stripping, lower-casing and the
  substring operators (`in`, `str.count`) are embedded as explicit functions on
  the underlying character lists.  `str.lower` is modelled on the ASCII range
  (`Char.toLower`), and `str.strip` strips the ASCII whitespace characters.
* `str.count` counts non-overlapping occurrences from the left, as in Python.
* All quantities added to the churn score are integers, and the clamp bounds
  are integers, so the Python float arithmetic is exact; the score is
  therefore modelled as `Int`.
* `deal_value` (a Python float) is modelled as `ℚ`; only order comparisons
  and truthiness tests are performed on it.
* Python `re` calls (`re.findall` / `re.search`) at fixed pattern lists are
  factored out as an explicit `RegexOracle` record: each call site consumes,
  in source order, the match lists the regex engine would return.  Every
  property proved below holds for *all* oracle values, hence in particular for
  the actual Python regex engine.
* Number formatting inside f-strings (`{:.0f}`, `{:,.0f}`) is modelled by
  `toString` of the integer value; no claim depends on the format details.
-/

namespace CRMAgent

/-! ## Python string primitives -/

/-- Python `str.lower`, on the ASCII range. -/
def pyLower (s : String) : String := ⟨s.data.map Char.toLower⟩

/-- Characters stripped by Python `str.strip()` (ASCII whitespace). -/
def isPySpace (c : Char) : Bool :=
  c = ' ' || c = '\t' || c = '\n' || c = '\r' || c = '\x0b' || c = '\x0c'

/-- Python `str.strip()`. -/
def pyStrip (s : String) : String :=
  ⟨((s.data.dropWhile isPySpace).reverse.dropWhile isPySpace).reverse⟩

/-- Python slicing `s[:n]` for `n ≥ 0`. -/
def pyTake (s : String) (n : Nat) : String := ⟨s.data.take n⟩

/-- Contiguous-sublist test on character lists (Python `pat in hay`). -/
def isSubList (pat : List Char) : List Char → Bool
  | [] => pat.isEmpty
  | c :: rest => pat.isPrefixOf (c :: rest) || isSubList pat rest

/-- Python substring operator `pat in s`. -/
def hasSub (s pat : String) : Bool := isSubList pat.data s.data

/-- Non-overlapping occurrence count on character lists: scan from the
left, and on a match skip the matched characters.  The `fuel` argument
(always at least the scanned list's length, which strictly shrinks at
every step) only makes the recursion structural. -/
def countSubGo (pat : List Char) : Nat → List Char → Nat
  | _, [] => 0
  | 0, _ => 0
  | fuel + 1, c :: rest =>
    if pat.isPrefixOf (c :: rest) && !pat.isEmpty then
      countSubGo pat fuel (rest.drop (pat.length - 1)) + 1
    else
      countSubGo pat fuel rest

/-- Python `s.count(pat)` for non-empty `pat`. -/
def countSub (s pat : String) : Nat := countSubGo pat.data s.data.length s.data

/-- Python truthiness of an optional string (`None` and `""` are falsy). -/
def truthy (o : Option String) : Bool :=
  match o with
  | none => false
  | some s => !s.data.isEmpty

/-- Python `a or b` for an optional string `a` and default `b`. -/
def orElseStr (o : Option String) (d : String) : String :=
  match o with
  | none => d
  | some s => if s.data.isEmpty then d else s

/-! ## Data model (`ExtractedData` from `schemas/crm.py`, agent records) -/

/-- `ExtractedData` (pydantic model, `backend/app/schemas/crm.py`): every
field defaults to `None` / the empty list. -/
structure ExtractedData where
  contact_name : Option String := none
  contact_email : Option String := none
  contact_phone : Option String := none
  contact_title : Option String := none
  company_name : Option String := none
  company_website : Option String := none
  deal_title : Option String := none
  deal_value : Option ℚ := none
  next_step : Option String := none
  next_step_date : Option String := none
  summary : Option String := none
  sentiment : Option String := none
  entities : List String := []
deriving Repr, DecidableEq

/-- One entry of the sentiment timeline (a `Dict[str, str]` in the source,
with keys `stage`, `sentiment`, `emoji`, `description`). -/
structure SentimentPoint where
  stage : String
  sentiment : String
  emoji : String
  description : String
deriving Repr, DecidableEq

/-- `AgentInsight` (pydantic model in `crm_agent.py`). -/
structure AgentInsight where
  category : String
  priority : String
  title : String
  description : String
  action_required : Bool
  suggested_actions : List String
deriving Repr, DecidableEq

/-- A contact dictionary (keys `name`, `email`, `phone`, `role`, `company`). -/
structure ContactRecord where
  name : String
  email : String
  phone : String
  role : String
  company : String
deriving Repr, DecidableEq

/-- A deal dictionary (keys `title`, `value`, `stage`, `status`, `notes`). -/
structure DealRecord where
  title : String
  value : ℚ
  stage : String
  status : String
  notes : String
deriving Repr, DecidableEq

/-- A task dictionary (keys `title`, `description`, `priority`, `due_date`,
`assigned_to`); `_generate_tasks` always populates all five keys. -/
structure TaskRecord where
  title : String
  description : String
  priority : String
  due_date : String
  assigned_to : String
deriving Repr, DecidableEq

/-- An action-item dictionary (keys `action`, `owner`, `due_date`,
`priority`, `status`). -/
structure ActionItem where
  action : String
  owner : String
  due_date : String
  priority : String
  status : String
deriving Repr, DecidableEq

/-! ## SentimentTimelineAnalyzer (`_analyze_sentiment_timeline`) -/

/-- Sentiment classification of one line, first match wins, over the
lower-cased line — the four keyword sets of `_analyze_sentiment_timeline`.
Returns `(sentiment, emoji)`. -/
def classifyLine (line : String) : String × String :=
  let low := pyLower line
  if [ "angry", "upset", "ridiculous", "unacceptable", "terrible", "worst"
     ].any (fun w => hasSub low w) then
    ("negative", "😠")
  else if ["apologize", "sorry", "understand", "help"
     ].any (fun w => hasSub low w) then
    ("empathetic", "🤝")
  else if ["thank", "appreciate", "great", "excellent"
     ].any (fun w => hasSub low w) then
    ("positive", "😊")
  else
    ("neutral", "😐")

/-- The `description` field of an emitted point:
`line[:100] + "..." if len(line) > 100 else line` — note that the Python
conditional expression binds the whole sum, so long lines yield
`line[:100] + "..."` (103 characters). -/
def pointDescription (line : String) : String :=
  if line.length > 100 then pyTake line 100 ++ "..." else line

/-- Python `transcript.split('\n')`: split on every newline, keeping empty
pieces (the empty string yields `[""]`). -/
def splitLinesAux : List Char → List Char → List String
  | [], cur => [⟨cur.reverse⟩]
  | c :: rest, cur =>
    if c = '\n' then (⟨cur.reverse⟩ : String) :: splitLinesAux rest []
    else splitLinesAux rest (c :: cur)

/-- Python `transcript.split('\n')`. -/
def splitLines (s : String) : List String := splitLinesAux s.data []

/-- The loop body of `_analyze_sentiment_timeline`: walk the lines carrying
the current sentiment (initially `"neutral"`) and the number of points
emitted so far (the stage label is `"Point {len(timeline)+1}"`). -/
def timelineAux (lines : List String) (cur : String) (n : Nat) :
    List SentimentPoint :=
  match lines with
  | [] => []
  | l :: ls =>
    if (pyStrip l).data.isEmpty then
      timelineAux ls cur n
    else
      let se := classifyLine l
      if se.1 ≠ cur then
        { stage := "Point " ++ toString (n + 1), sentiment := se.1,
          emoji := se.2,
          description := pointDescription l } :: timelineAux ls se.1 (n + 1)
      else
        timelineAux ls cur n

/-- The full (uncapped) change-point sequence of a transcript. -/
def timelineFull (transcript : String) : List SentimentPoint :=
  timelineAux (splitLines transcript) "neutral" 0

/-- `_analyze_sentiment_timeline`: the change-point sequence, capped to the
first 5 entries (`timeline[:5]`). -/
def analyze_sentiment_timeline (transcript : String) : List SentimentPoint :=
  (timelineFull transcript).take 5

/-! ## RiskDetector (`_detect_risks`) -/

/-- `_detect_risks`: four independent keyword rules over the lower-cased
transcript (the `extracted` argument is unused by the source body). -/
def detect_risks (transcript : String) (_extracted : ExtractedData) :
    List String :=
  let low := pyLower transcript
  (if ["cancel", "refund", "never again", "worst"].any (fun w => hasSub low w)
   then ["Customer churn risk detected"] else []) ++
  (if hasSub low "supervisor" || hasSub low "manager"
   then ["Issue escalated to management"] else []) ++
  (if countSub low "unacceptable" > 2 || countSub low "ridiculous" > 2
   then ["High negative sentiment - immediate action required"] else []) ++
  (if hasSub low "cancel" && (hasSub low "flight" || hasSub low "booking")
   then ["Service disruption - customer compensation may be needed"] else [])

/-! ## ChurnScorer (`_calculate_churn_probability`) -/

/-- `_calculate_churn_probability`: baseline 50.0, weighted substring counts,
flat adjustments, +8 per negative timeline point, clamped by
`max(0, min(100, score))`.  All contributions are integral, so the float
computation is exact over `Int`. -/
def calculate_churn_probability (transcript : String)
    (sentiment_timeline : List SentimentPoint) : Int :=
  let low := pyLower transcript
  let score : Int := 50
  let score := score + 10 * (countSub low "cancel" : Int)
  let score := score + 8 * (countSub low "refund" : Int)
  let score := score + 5 * (countSub low "unacceptable" : Int)
  let score := score + 7 * (countSub low "worst" : Int)
  let score := score + 6 * (countSub low "never" : Int)
  let score := if hasSub low "voucher" && hasSub low "don\x27t want" then
      score + 15 else score
  let score := if hasSub low "thank" then score - 5 else score
  let score := if hasSub low "appreciate" then score - 5 else score
  let score := if hasSub low "resolve" || hasSub low "fixed" then
      score - 10 else score
  let negative_count : Int :=
    (sentiment_timeline.countP (fun s => s.sentiment = "negative") : Int)
  let score := score + negative_count * 8
  max 0 (min 100 score)

/-! ## RiskLevelClassifier (`_determine_risk_level`) -/

/-- `_determine_risk_level`: ordered threshold ladder, first match wins.
The `sentiment_timeline` parameter appears in the source signature but is
not read by the body. -/
def determine_risk_level (churn_prob : Int) (risks : List String)
    (_sentiment_timeline : List SentimentPoint) : String :=
  if churn_prob > 70 || risks.length ≥ 3 then "critical"
  else if churn_prob > 50 || risks.length ≥ 2 then "high"
  else if churn_prob > 30 || risks.length ≥ 1 then "medium"
  else "low"

/-! ## InsightGenerator (`_generate_insights`) -/

/-- `_generate_insights`: three independent rules in fixed order
(risk, sentiment, opportunity), each appending at most one insight. -/
def generate_insights (_transcript : String) (extracted : ExtractedData)
    (risks : List String) : List AgentInsight :=
  (if !risks.isEmpty then
     [{ category := "risk", priority := "high",
        title := "⚠️ Critical Customer Issues Detected",
        description := toString risks.length ++
          " risk factors identified requiring immediate attention",
        action_required := true,
        suggested_actions :=
          [ "Assign to senior account manager",
            "Schedule follow-up call within 24 hours",
            "Review service recovery procedures" ] }]
   else []) ++
  (if extracted.sentiment = some "negative" then
     [{ category := "sentiment", priority := "high",
        title := "😠 Negative Customer Experience",
        description :=
          "Customer expressed significant dissatisfaction throughout interaction",
        action_required := true,
        suggested_actions :=
          [ "Send personalized apology from leadership",
            "Offer additional compensation",
            "Monitor for follow-up issues" ] }]
   else []) ++
  (match extracted.deal_value with
   | some v =>
     if v ≠ 0 ∧ v > 1000 then
       [{ category := "opportunity", priority := "medium",
          title := "💰 High-Value Customer",
          description := "Customer has $" ++ toString v ++
            " transaction - worth retaining",
          action_required := true,
          suggested_actions :=
            [ "Assign VIP status",
              "Provide premium support access",
              "Consider loyalty program enrollment" ] }]
     else []
   | none => [])

/-! ## Regex oracle

The pipeline calls Python `re.findall` / `re.search` on six fixed pattern
lists.  The regex engine is factored out as this record: each field returns,
for a given transcript, exactly what the corresponding `re` call would
return (one component per pattern, in source order).  All theorems below
hold for every oracle, hence for the actual engine. -/
structure RegexOracle where
  /-- `re.findall` for the two `staff_patterns` of `_identify_contacts`. -/
  staffFindall : String → List String × List String
  /-- `re.search(...).group(0)` for the three `date_patterns` of
  `_extract_meeting_metadata`. -/
  dateSearch : String → Option String × Option String × Option String
  /-- `re.findall` for the three `decision_patterns` of `_extract_decisions`. -/
  decisionFindall : String → List String × List String × List String
  /-- `re.findall` for the two `action_patterns` of `_extract_action_items`. -/
  actionFindall : String → List String × List String
  /-- `re.findall` for the two `follow_up_patterns` of `_extract_follow_ups`. -/
  followUpFindall : String → List String × List String
  /-- `re.search(...).group(1)` for the three `next_meeting_patterns` of
  `_extract_next_meeting`. -/
  nextMeetingSearch : String → Option String × Option String × Option String

/-! ## ContactIdentifier (`_identify_contacts`) -/

/-- The raw contact list before deduplication: the primary contact (when
`extracted.contact_name` is truthy) followed by the staff-pattern matches
(filtered by `name and len(name) > 2`, name stripped in the record). -/
def rawContacts (extracted : ExtractedData) (staff_matches : List String) :
    List ContactRecord :=
  (if truthy extracted.contact_name then
     [{ name := extracted.contact_name.getD "",
        email := orElseStr extracted.contact_email "",
        phone := orElseStr extracted.contact_phone "",
        role := "Customer",
        company := orElseStr extracted.company_name "" }]
   else []) ++
  ((staff_matches.filter
      (fun name => !name.data.isEmpty && name.length > 2)).map
    (fun name =>
      { name := pyStrip name, email := "", phone := "", role := "Staff",
        company := orElseStr extracted.company_name "Internal" }))

/-- The `seen`-set deduplication loop of `_identify_contacts`: keep the
first occurrence of each name (case-sensitive exact match). -/
def dedupContacts (seen : List String) : List ContactRecord → List ContactRecord
  | [] => []
  | c :: rest =>
    if c.name ∈ seen then dedupContacts seen rest
    else c :: dedupContacts (c.name :: seen) rest

/-- `_identify_contacts`: raw contacts, deduplicated by name, first five
kept (`unique_contacts[:5]`).  `staff_matches` is the concatenation, in
pattern order, of the two `re.findall` results. -/
def identify_contacts (extracted : ExtractedData) (staff_matches : List String) :
    List ContactRecord :=
  (dedupContacts [] (rawContacts extracted staff_matches)).take 5

/-! ## DealExtractor (`_extract_deals` and helpers) -/

/-- Python truthiness of an optional number (`None` and `0` are falsy). -/
def truthyNum (o : Option ℚ) : Bool :=
  match o with
  | none => false
  | some v => decide (v ≠ 0)

/-- `_determine_deal_stage`: first-match-wins keyword ladder. -/
def determine_deal_stage (transcript : String) : String :=
  let low := pyLower transcript
  if hasSub low "refund" || hasSub low "cancel" then "Cancelled/Refunded"
  else if hasSub low "closed" || hasSub low "completed" then "Closed Won"
  else if hasSub low "negotiat" || hasSub low "discuss" then "Negotiation"
  else "In Progress"

/-- `_determine_deal_status`: first-match-wins keyword ladder. -/
def determine_deal_status (transcript : String) : String :=
  let low := pyLower transcript
  if hasSub low "refund" then "Refunded"
  else if hasSub low "cancel" then "Cancelled"
  else if hasSub low "complete" then "Completed"
  else "Active"

/-- `_extract_deals`: at most one deal, produced when the extraction has a
truthy deal title or deal value. -/
def extract_deals (transcript : String) (extracted : ExtractedData) :
    List DealRecord :=
  if truthy extracted.deal_title || truthyNum extracted.deal_value then
    [{ title := orElseStr extracted.deal_title "Transaction",
       value := extracted.deal_value.getD 0,
       stage := determine_deal_stage transcript,
       status := determine_deal_status transcript,
       notes := orElseStr extracted.summary "" }]
  else []

/-! ## TaskGenerator (`_generate_tasks`) -/

/-- `_generate_tasks`: three independent generators in fixed order. -/
def generate_tasks (transcript : String) (extracted : ExtractedData)
    (insights : List AgentInsight) : List TaskRecord :=
  (if truthy extracted.next_step then
     [{ title := "Follow-up Action Required",
        description := extracted.next_step.getD "",
        priority := "high", due_date := "2 days",
        assigned_to := "Account Manager" }]
   else []) ++
  (if insights.any (fun i => i.category == "risk") then
     [{ title := "Customer Retention Action",
        description := "High churn risk - immediate outreach required",
        priority := "urgent", due_date := "24 hours",
        assigned_to := "Senior Account Manager" }]
   else []) ++
  (if hasSub (pyLower transcript) "refund" then
     [{ title := "Process Refund",
        description := "Complete refund processing and confirm with customer",
        priority := "high", due_date := "3 days",
        assigned_to := "Finance Team" }]
   else [])

/-! ## SummaryComposer (`_generate_executive_summary`, `_extract_key_points`) -/

/-- The CRITICAL churn warning line of the executive summary. -/
def criticalPart (churn_prob : Int) : String :=
  "⚠️ CRITICAL: " ++ toString churn_prob ++ "% churn probability"

/-- The WARNING churn warning line of the executive summary. -/
def warningPart (churn_prob : Int) : String :=
  "⚠️ WARNING: " ++ toString churn_prob ++ "% churn probability"

/-- The `summary_parts` list built by `_generate_executive_summary`, in
source order. -/
def summary_parts (transcript : String) (extracted : ExtractedData)
    (sentiment_timeline : List SentimentPoint) (churn_prob : Int) :
    List String :=
  (if truthy extracted.contact_name then
     ["Customer " ++ extracted.contact_name.getD "" ++ " contacted support"]
   else []) ++
  (match sentiment_timeline with
   | [] => []
   | p :: _ => ["with " ++ p.sentiment ++ " sentiment"]) ++
  (if truthy extracted.summary then
     ["regarding: " ++ pyTake (extracted.summary.getD "") 100]
   else []) ++
  (if churn_prob > 70 then [criticalPart churn_prob]
   else if churn_prob > 50 then [warningPart churn_prob]
   else []) ++
  (if hasSub (pyLower transcript) "refund" then ["Refund processed"] else []) ++
  (if hasSub (pyLower transcript) "supervisor" then ["escalated to supervisor"]
   else [])

/-- Python `". ".join(parts)`. -/
def pyJoinDot : List String → String
  | [] => ""
  | [p] => p
  | p :: rest => p ++ ". " ++ pyJoinDot rest

/-- `_generate_executive_summary`: join the parts with `". "` and a
trailing period (`risks` is in the source signature but unused). -/
def generate_executive_summary (transcript : String) (extracted : ExtractedData)
    (sentiment_timeline : List SentimentPoint) (_risks : List String)
    (churn_prob : Int) : String :=
  pyJoinDot
    (summary_parts transcript extracted sentiment_timeline churn_prob) ++ "."

/-- Sentence-terminator class of `re.split(r'[.!?]+', transcript)`. -/
def isSentenceEnd (c : Char) : Bool := c = '.' || c = '!' || c = '?'

/-- `re.split(r'[.!?]+', s)`: split on maximal runs of sentence
terminators.  The `fuel` argument (always at least the scanned list's
length, which strictly shrinks at every step) only makes the recursion
structural. -/
def splitSentGo : Nat → List Char → List Char → List String
  | _, [], cur => [⟨cur.reverse⟩]
  | 0, _, cur => [⟨cur.reverse⟩]
  | fuel + 1, c :: rest, cur =>
    if isSentenceEnd c then
      (⟨cur.reverse⟩ : String) :: splitSentGo fuel (rest.dropWhile isSentenceEnd) []
    else
      splitSentGo fuel rest (c :: cur)

/-- The sentence list scanned by `_extract_key_points`. -/
def splitSentences (transcript : String) : List String :=
  splitSentGo transcript.data.length transcript.data []

/-- The fixed keyword set of `_extract_key_points`. -/
def keyPointKeywords : List String :=
  [ "refund", "cancel", "problem", "issue", "apologize",
    "resolve", "supervisor", "voucher", "compensation" ]

/-- The accumulation loop of `_extract_key_points`: strip each sentence,
keep it (truncated to 150 chars) when it contains a keyword and is longer
than 30 chars, and stop once 5 points are collected. -/
def keyPointsLoop (sentences : List String) (acc : List String) : List String :=
  match sentences with
  | [] => acc
  | s :: rest =>
    let s := pyStrip s
    if keyPointKeywords.any (fun k => hasSub (pyLower s) k) && s.length > 30 then
      let acc := acc ++ [pyTake s 150]
      if acc.length ≥ 5 then acc else keyPointsLoop rest acc
    else
      keyPointsLoop rest acc

/-- `_extract_key_points` (the `extracted` argument is unused by the body). -/
def extract_key_points (transcript : String) (_extracted : ExtractedData) :
    List String :=
  keyPointsLoop (splitSentences transcript) []

/-! ## RecommendedActionComposer (`_generate_recommended_actions`) -/

/-- `_generate_recommended_actions`: conditional escalation actions, then
conditional compensation actions, then three unconditional housekeeping
actions, capped at 6 (the `insights` argument is unused by the body). -/
def generate_recommended_actions (_insights : List AgentInsight)
    (risk_level : String) (churn_prob : Int) : List String :=
  let actions :=
    if risk_level = "critical" ∨ risk_level = "high" then
      [ "🚨 Immediate: Assign to senior account manager",
        "📞 Schedule follow-up call within 24 hours" ]
    else []
  let actions :=
    if churn_prob > 60 then
      actions ++
        [ "💰 Consider additional compensation/credits",
          "👥 Escalate to customer success team" ]
    else actions
  let actions := actions ++
    [ "📧 Send personalized follow-up email",
      "📊 Monitor customer satisfaction metrics",
      "✅ Document issue in CRM with full context" ]
  actions.take 6

/-! ## MeetingMinutesExtractor (`_extract_meeting_metadata` … `_extract_next_meeting`) -/

/-- First `some` in a list of optional matches (the `for … if match: break`
pattern over `re.search` results). -/
def firstSome : List (Option String) → Option String
  | [] => none
  | some s :: _ => some s
  | none :: rest => firstSome rest

/-- `_extract_meeting_metadata`: date from the first matching date pattern;
title from the context/keyword ladder.  Returns `(title, date)`. -/
def extract_meeting_metadata (oracle : RegexOracle) (transcript context : String) :
    Option String × Option String :=
  let d := oracle.dateSearch transcript
  let date := firstSome [d.1, d.2.1, d.2.2]
  let title :=
    if context = "customer_service" then
      if hasSub (pyLower transcript) "supervisor" then
        some "Customer Service Escalation Call"
      else
        some "Customer Support Call"
    else if hasSub (pyLower transcript) "meeting" then some "Team Meeting"
    else if hasSub (pyLower transcript) "review" then some "Review Session"
    else some "Business Discussion"
  (title, date)

/-- `_extract_attendees`: names of the identified contacts with a truthy
name. -/
def extract_attendees (contacts : List ContactRecord) : List String :=
  (contacts.filter (fun c => !c.name.data.isEmpty)).map (fun c => c.name)

/-- Inner loop shared by `_extract_decisions` and `_extract_follow_ups`:
strip each match, append it bulleted when it is longer than 15 chars and
the raw string is not already in the accumulator, and break out once the
accumulator holds 5 entries. -/
def bulletInner (acc : List String) : List String → List String
  | [] => acc
  | m :: rest =>
    let d := pyStrip m
    let acc2 :=
      if d.length > 15 && !acc.contains d then acc ++ ["• " ++ d] else acc
    if acc2.length ≥ 5 then acc2 else bulletInner acc2 rest

/-- Outer loop over the per-pattern match lists (the inner break does not
stop the scan of later patterns). -/
def bulletOuter (acc : List String) : List (List String) → List String
  | [] => acc
  | ms :: rest => bulletOuter (bulletInner acc ms) rest

/-- `_extract_decisions`: bulleted decision phrases, capped at 5. -/
def extract_decisions (oracle : RegexOracle) (transcript : String) :
    List String :=
  let p := oracle.decisionFindall transcript
  (bulletOuter [] [p.1, p.2.1, p.2.2]).take 5

/-- Conversion of one generated task into an action item
(`task.get('assigned_to', 'TBD')` etc.; `_generate_tasks` always populates
these keys, so the record fields are total). -/
def taskToActionItem (task : TaskRecord) : ActionItem :=
  { action := task.title, owner := task.assigned_to,
    due_date := task.due_date, priority := task.priority,
    status := "pending" }

/-- A text-pattern action item (`owner`/`due_date` default to `"TBD"`). -/
def textActionItem (m : String) : ActionItem :=
  { action := pyStrip m, owner := "TBD", due_date := "TBD",
    priority := "medium", status := "pending" }

/-- Inner loop of `_extract_action_items` over one pattern's matches: each
match is appended only while the accumulated list is shorter than 8. -/
def actionTextLoop (acc : List ActionItem) : List String → List ActionItem
  | [] => acc
  | m :: ms =>
    if acc.length < 8 then actionTextLoop (acc ++ [textActionItem m]) ms
    else actionTextLoop acc ms

/-- Core of `_extract_action_items` over the two per-pattern match lists:
tasks converted 1:1, then for each pattern the first 3 matches
(`matches[:3]`), final cap at 8. -/
def extract_action_items_core (tasks : List TaskRecord)
    (pm : List (List String)) : List ActionItem :=
  (pm.foldl (fun acc ms => actionTextLoop acc (ms.take 3))
    (tasks.map taskToActionItem)).take 8

/-- `_extract_action_items`. -/
def extract_action_items (oracle : RegexOracle) (transcript : String)
    (tasks : List TaskRecord) : List ActionItem :=
  let p := oracle.actionFindall transcript
  extract_action_items_core tasks [p.1, p.2]

/-- `_extract_follow_ups`: optional next-step bullet, then the bulleted
pattern loop, capped at 5. -/
def extract_follow_ups (oracle : RegexOracle) (transcript : String)
    (extracted : ExtractedData) : List String :=
  let init :=
    if truthy extracted.next_step then ["• " ++ extracted.next_step.getD ""]
    else []
  let p := oracle.followUpFindall transcript
  (bulletOuter init [p.1, p.2]).take 5

/-- `_extract_next_meeting`: the first pattern with a match wins; its first
capture group is returned stripped. -/
def extract_next_meeting (oracle : RegexOracle) (transcript : String) :
    Option String :=
  let p := oracle.nextMeetingSearch transcript
  (firstSome [p.1, p.2.1, p.2.2]).map pyStrip

/-! ## AnalysisOrchestrator (`analyze_transcript`) -/

/-- `AgentAnalysis` (pydantic model in `crm_agent.py`). -/
structure AgentAnalysis where
  summary : String
  key_points : List String
  sentiment_timeline : List SentimentPoint
  risk_level : String
  churn_probability : Int
  insights : List AgentInsight
  recommended_actions : List String
  contacts_identified : List ContactRecord
  deals_identified : List DealRecord
  tasks_to_create : List TaskRecord
  meeting_title : Option String := none
  meeting_date : Option String := none
  attendees : List String := []
  decisions_made : List String := []
  action_items : List ActionItem := []
  follow_up_items : List String := []
  next_meeting : Option String := none
deriving Repr, DecidableEq

/-- `CRMAgent.analyze_transcript`: the linear pipeline of lines 57–121,
parameterised by the regex oracle and the upstream extraction function
(`ai_service.extract_from_text(transcript, source_type="call")`). -/
def analyze_transcript (oracle : RegexOracle)
    (extract : String → ExtractedData) (transcript context : String) :
    AgentAnalysis :=
  let extracted := extract transcript
  let sentiment_timeline := analyze_sentiment_timeline transcript
  let risks := detect_risks transcript extracted
  let insights := generate_insights transcript extracted risks
  let churn_prob := calculate_churn_probability transcript sentiment_timeline
  let staff := oracle.staffFindall transcript
  let contacts := identify_contacts extracted (staff.1 ++ staff.2)
  let deals := extract_deals transcript extracted
  let tasks := generate_tasks transcript extracted insights
  let summary := generate_executive_summary transcript extracted
    sentiment_timeline risks churn_prob
  let key_points := extract_key_points transcript extracted
  let risk_level := determine_risk_level churn_prob risks sentiment_timeline
  let actions := generate_recommended_actions insights risk_level churn_prob
  let meta := extract_meeting_metadata oracle transcript context
  let attendees := extract_attendees contacts
  let decisions := extract_decisions oracle transcript
  let action_items := extract_action_items oracle transcript tasks
  let follow_ups := extract_follow_ups oracle transcript extracted
  let next_meeting := extract_next_meeting oracle transcript
  { summary := summary,
    key_points := key_points,
    sentiment_timeline := sentiment_timeline,
    risk_level := risk_level,
    churn_probability := churn_prob,
    insights := insights,
    recommended_actions := actions,
    contacts_identified := contacts,
    deals_identified := deals,
    tasks_to_create := tasks,
    meeting_title := meta.1,
    meeting_date := meta.2,
    attendees := attendees,
    decisions_made := decisions,
    action_items := action_items,
    follow_up_items := follow_ups,
    next_meeting := next_meeting }

/-! ## Specification-side definitions

These are written from the wording of the specification / claims, to be
compared with the source-derived definitions above. -/

/-- The churn formula as the specification words it: the clamp to [0,100]
of 50 plus the weighted substring counts, the flat voucher adjustment, the
three relief adjustments, and 8 per negative-tagged timeline point. -/
def churnFormulaSpec (transcript : String) (tl : List SentimentPoint) : Int :=
  let low := pyLower transcript
  let raw : Int := 50
    + 10 * (countSub low "cancel" : Int)
    + 8 * (countSub low "refund" : Int)
    + 5 * (countSub low "unacceptable" : Int)
    + 7 * (countSub low "worst" : Int)
    + 6 * (countSub low "never" : Int)
    + (if hasSub low "voucher" && hasSub low "don\x27t want" then 15 else 0)
    - (if hasSub low "thank" then 5 else 0)
    - (if hasSub low "appreciate" then 5 else 0)
    - (if hasSub low "resolve" || hasSub low "fixed" then 10 else 0)
    + 8 * (tl.countP (fun s => s.sentiment = "negative") : Int)
  max 0 (min 100 raw)

/-- The risk ladder as the specification words it: a function of the churn
score and the risk-flag count only, strict thresholds, first match wins. -/
def riskLadderSpec (churn : Int) (riskCount : Nat) : String :=
  if churn > 70 || riskCount ≥ 3 then "critical"
  else if churn > 50 || riskCount ≥ 2 then "high"
  else if churn > 30 || riskCount ≥ 1 then "medium"
  else "low"

/-! ## C1: churn probability -/

/-- **C1** (confirmed).  For every transcript and sentiment timeline, the
churn probability computed by `_calculate_churn_probability` equals the
clamp to [0,100] of: 50 plus 10 per `"cancel"`, 8 per `"refund"`, 5 per
`"unacceptable"`, 7 per `"worst"`, 6 per `"never"` in the lower-cased
transcript, plus a flat 15 when both `"voucher"` and `"don't want"` occur,
minus 5 for `"thank"`, minus 5 for `"appreciate"`, minus 10 for
`"resolve"` or `"fixed"`, plus 8 per negative-tagged timeline point; and
consequently it always lies in [0,100]. -/
theorem churn_probability_formula_and_bounds (t : String)
    (tl : List SentimentPoint) :
    calculate_churn_probability t tl = churnFormulaSpec t tl ∧
    0 ≤ calculate_churn_probability t tl ∧
    calculate_churn_probability t tl ≤ 100 := by
  refine ⟨?_, ?_, ?_⟩ <;>
    simp only [calculate_churn_probability, churnFormulaSpec] <;>
    split_ifs <;> omega

/-! ## C2: risk-level ladder -/

/-- **C2** (confirmed).  `_determine_risk_level` is a total function of the
churn score and the number of risk flags only — the sentiment-timeline
argument has no effect — and equals the strict first-match-wins threshold
ladder `riskLadderSpec`. -/
theorem risk_level_total_ladder (churn : Int) (risks : List String)
    (tl : List SentimentPoint) :
    determine_risk_level churn risks tl = riskLadderSpec churn risks.length :=
  rfl

/-! ## C9: determinism -/

/-- **C9** (confirmed).  With the upstream extraction step and the regex
engine modelled as fixed functions of their inputs, `analyze_transcript` is
a pure function: two runs on identical `(transcript, context)` inputs
return equal `AgentAnalysis` values.  (The source body reads no clock, no
randomness and no state outside its arguments.) -/
theorem analyze_transcript_deterministic (oracle : RegexOracle)
    (extract : String → ExtractedData) (transcript context : String) :
    analyze_transcript oracle extract transcript context =
      analyze_transcript oracle extract transcript context :=
  rfl

/-! ## C10: recommended actions are never empty -/

/-- **C10** (confirmed).  For every insight list, risk level and churn
score, `_generate_recommended_actions` returns between 3 and 6 actions:
the three housekeeping actions are appended unconditionally before the cap
of 6 is applied. -/
theorem recommended_actions_count_bounds (insights : List AgentInsight)
    (risk_level : String) (churn : Int) :
    3 ≤ (generate_recommended_actions insights risk_level churn).length ∧
    (generate_recommended_actions insights risk_level churn).length ≤ 6 := by
  simp only [generate_recommended_actions]
  split_ifs <;> simp

/-! ## C5: the sentiment timeline holds only change points -/

/-- Invariant of the timeline loop: consecutive emitted points have
distinct sentiments, and the first emitted point's sentiment differs from
the carried current sentiment. -/
lemma timelineAux_chain (lines : List String) : ∀ (cur : String) (n : Nat),
    List.Chain' (fun a b => a.sentiment ≠ b.sentiment)
      (timelineAux lines cur n) ∧
    ∀ p ∈ (timelineAux lines cur n).head?, p.sentiment ≠ cur := by
  induction lines with
  | nil => intro cur n; simp [timelineAux]
  | cons l ls ih =>
    intro cur n
    simp only [timelineAux]
    split
    · exact ih cur n
    · split
      · rename_i hs
        obtain ⟨ihc, ihh⟩ := ih (classifyLine l).1 (n + 1)
        refine ⟨List.chain'_cons'.mpr ⟨?_, ihc⟩, ?_⟩
        · intro y hy
          exact fun h => ihh y hy h.symm
        · intro p hp
          simp only [List.head?_cons, Option.mem_def, Option.some.injEq] at hp
          subst hp
          exact hs
      · exact ih cur n

/-- `head?` of a positive-length `take` agrees with `head?`. -/
lemma head?_take {α : Type} (l : List α) (n : Nat) (hn : n ≠ 0) :
    (l.take n).head? = l.head? := by
  cases l with
  | nil => simp
  | cons a l =>
    cases n with
    | zero => exact absurd rfl hn
    | succ m => simp [List.take_succ_cons]

/-- **C5** (confirmed).  `_analyze_sentiment_timeline` returns the first 5
entries of the full change-point sequence (later change points are
dropped), no two consecutive emitted points share a sentiment, and the
first emitted point's sentiment differs from the initial `"neutral"`. -/
theorem sentiment_timeline_change_points (t : String) :
    analyze_sentiment_timeline t = (timelineFull t).take 5 ∧
    List.Chain' (fun a b => a.sentiment ≠ b.sentiment)
      (analyze_sentiment_timeline t) ∧
    ∀ p ∈ (analyze_sentiment_timeline t).head?, p.sentiment ≠ "neutral" := by
  refine ⟨rfl, ?_, ?_⟩
  · exact (timelineAux_chain (splitLines t) "neutral" 0).1.take 5
  · intro p hp
    refine (timelineAux_chain (splitLines t) "neutral" 0).2 p ?_
    rwa [analyze_sentiment_timeline, timelineFull,
      head?_take _ 5 (by omega)] at hp

/-- Witness for the change-point theorem at a concrete transcript whose
single line is classified `negative`. -/
theorem sentiment_timeline_change_points_witness :
    (analyze_sentiment_timeline "I am angry").head? =
      some { stage := "Point 1", sentiment := "negative", emoji := "😠",
             description := "I am angry" } ∧
    ("negative" : String) ≠ "neutral" := by
  refine ⟨by decide, ?_⟩
  exact (sentiment_timeline_change_points "I am angry").2.2
    { stage := "Point 1", sentiment := "negative", emoji := "😠",
      description := "I am angry" } (by decide)

/-! ## C6: description length of emitted points -/

/-- The description of an emitted point is the source line when it has at
most 100 characters, and its first 100 characters followed by `"..."`
(103 characters in total) otherwise. -/
lemma pointDescription_length (l : String) :
    (pointDescription l).length ≤ 103 := by
  unfold pointDescription
  split
  · rw [String.length_append]
    have h : (pyTake l 100).length ≤ 100 := List.length_take_le 100 l.data
    have h3 : ("..." : String).length = 3 := rfl
    omega
  · rename_i h
    simp only [not_lt] at h
    omega

/-- Every point emitted by the timeline loop has a description of at most
103 characters. -/
lemma timelineAux_description (lines : List String) :
    ∀ (cur : String) (n : Nat) (p : SentimentPoint),
      p ∈ timelineAux lines cur n → p.description.length ≤ 103 := by
  induction lines with
  | nil => intro cur n p hp; simp [timelineAux] at hp
  | cons l ls ih =>
    intro cur n p hp
    simp only [timelineAux] at hp
    split at hp
    · exact ih cur n p hp
    · split at hp
      · rcases List.mem_cons.mp hp with h | h
        · subst h; exact pointDescription_length l
        · exact ih _ _ p h
      · exact ih cur n p hp

/-- **C6** (corrected).  Every emitted `SentimentPoint` description has at
most 103 characters: the source line when it fits in 100 characters, else
its first 100 characters plus the 3-character ellipsis `"..."` — the
Python conditional `line[:100] + "..." if len(line) > 100 else line`
appends the ellipsis *after* truncating, so the claimed bound of 100 fails
on lines of 101 or more characters. -/
theorem sentiment_description_le_103 (t : String) (p : SentimentPoint)
    (hp : p ∈ analyze_sentiment_timeline t) : p.description.length ≤ 103 := by
  have hp' : p ∈ timelineFull t :=
    (List.take_sublist 5 (timelineFull t)).subset hp
  exact timelineAux_description (splitLines t) "neutral" 0 p hp'

/-- A 101-character transcript line that is classified `negative`
(it contains `"angry"`). -/
def longAngryLine : String := "angry" ++ ⟨List.replicate 96 'a'⟩

/-- The point emitted for `longAngryLine`. -/
def longAngryPoint : SentimentPoint :=
  { stage := "Point 1", sentiment := "negative", emoji := "😠",
    description := pyTake longAngryLine 100 ++ "..." }

/-- Witness for the description bound at a concrete emitted point. -/
theorem sentiment_description_le_103_witness :
    longAngryPoint ∈ analyze_sentiment_timeline longAngryLine ∧
    longAngryPoint.description.length ≤ 103 := by
  refine ⟨by decide, ?_⟩
  exact sentiment_description_le_103 longAngryLine longAngryPoint (by decide)

/-- Counterexample to C6 as stated: on a 101-character negative line the
emitted description has 103 characters (`line[:100] + "..."`), exceeding
the claimed bound of 100. -/
theorem sentiment_description_exceeds_100 :
    ((analyze_sentiment_timeline longAngryLine).map
      fun p => p.description.length) = [103] ∧
    ¬ ∀ p ∈ analyze_sentiment_timeline longAngryLine,
        p.description.length ≤ 100 := by
  constructor <;> decide

/-! ## C7: contact deduplication -/

/-- Invariant of the `seen`-set loop: the emitted names are distinct and
none of them is in `seen`. -/
lemma dedupContacts_nodup (cs : List ContactRecord) : ∀ (seen : List String),
    ((dedupContacts seen cs).map fun c => c.name).Nodup ∧
    ∀ c ∈ dedupContacts seen cs, c.name ∉ seen := by
  induction cs with
  | nil => intro seen; simp [dedupContacts]
  | cons c rest ih =>
    intro seen
    simp only [dedupContacts]
    split
    · exact ⟨(ih seen).1, fun d hd => (ih seen).2 d hd⟩
    · rename_i hmem
      obtain ⟨ihn, ihs⟩ := ih (c.name :: seen)
      refine ⟨?_, ?_⟩
      · simp only [List.map_cons, List.nodup_cons]
        refine ⟨?_, ihn⟩
        intro hx
        obtain ⟨d, hd, hdn⟩ := List.mem_map.mp hx
        exact ihs d hd (hdn ▸ List.mem_cons_self _ _)
      · intro d hd
        rcases List.mem_cons.mp hd with h | h
        · subst h; exact hmem
        · exact fun hds => ihs d h (List.mem_cons_of_mem _ hds)

/-- A string with non-empty character data is not the empty string. -/
lemma ne_empty_of_data {s : String} (h : s ≠ "") : s.data.isEmpty = false := by
  obtain ⟨d⟩ := s
  cases d with
  | nil => exact absurd rfl h
  | cons a l => rfl

/-- **C7** (confirmed).  `_identify_contacts` never returns two entries
with the same name (case-sensitive exact match, first occurrence kept),
returns at most 5 entries — the first 5 surviving deduplication — and,
whenever the extraction's primary contact name is set (truthy), the entry
with that name sits at index 0 with role `"Customer"`. -/
theorem identify_contacts_dedup_spec (extracted : ExtractedData)
    (staff : List String) :
    ((identify_contacts extracted staff).map fun c => c.name).Nodup ∧
    (identify_contacts extracted staff).length ≤ 5 ∧
    identify_contacts extracted staff =
      (dedupContacts [] (rawContacts extracted staff)).take 5 ∧
    ∀ s, extracted.contact_name = some s → s ≠ "" →
      (identify_contacts extracted staff).head? =
        some { name := s, email := orElseStr extracted.contact_email "",
               phone := orElseStr extracted.contact_phone "",
               role := "Customer",
               company := orElseStr extracted.company_name "" } := by
  refine ⟨?_, List.length_take_le 5 _, rfl, ?_⟩
  · unfold identify_contacts
    rw [List.map_take]
    exact ((dedupContacts_nodup (rawContacts extracted staff) []).1).sublist
      (List.take_sublist 5 _)
  · intro s hs hne
    have ht : truthy extracted.contact_name = true := by
      rw [hs]; simp [truthy, ne_empty_of_data hne]
    unfold identify_contacts rawContacts
    rw [hs] at ht ⊢
    simp [ht, dedupContacts, List.take_succ_cons]

/-- The extraction record used by the contact witness: primary contact
name `"John Smith"`, everything else defaulted. -/
def contactsDemoExtracted : ExtractedData := { contact_name := some "John Smith" }

/-- Witness for the contact theorem: with primary contact `"John Smith"`
and one staff match `"Sarah"`, `"John Smith"` is at index 0 with role
`"Customer"`. -/
theorem identify_contacts_dedup_spec_witness :
    ("John Smith" : String) ≠ "" ∧
    (identify_contacts contactsDemoExtracted ["Sarah"]).head? =
      some { name := "John Smith", email := "", phone := "",
             role := "Customer", company := "" } := by
  refine ⟨by decide, ?_⟩
  exact (identify_contacts_dedup_spec contactsDemoExtracted ["Sarah"]).2.2.2
    "John Smith" rfl (by decide)

/-! ## C8: action-item assembly -/

/-- The `len(action_items) < 8` guarded append equals plain appending
truncated at `max acc.length 8`. -/
lemma actionTextLoop_eq (ms : List String) : ∀ acc : List ActionItem,
    actionTextLoop acc ms =
      (acc ++ ms.map textActionItem).take (max acc.length 8) := by
  induction ms with
  | nil =>
    intro acc
    simp only [actionTextLoop, List.map_nil, List.append_nil]
    rw [List.take_of_length_le (Nat.le_max_left _ _)]
  | cons m ms ih =>
    intro acc
    simp only [actionTextLoop, List.map_cons]
    split
    · rename_i h
      rw [ih]
      have h1 : max (acc ++ [textActionItem m]).length 8 = 8 := by
        simp only [List.length_append, List.length_singleton]; omega
      have h2 : max acc.length 8 = 8 := by omega
      rw [h1, h2, List.append_assoc, List.singleton_append]
    · rename_i h
      rw [ih]
      have h2 : max acc.length 8 = acc.length := by omega
      rw [h2, List.take_append_of_le_length (Nat.le_refl _),
        List.take_append_of_le_length (Nat.le_refl _)]

/-- Truncating an inner `take n` with `8 ≤ n` does not change a final
`take 8`. -/
lemma take8_after_take (x m : List ActionItem) (n : Nat) (hn : 8 ≤ n) :
    (x.take n ++ m).take 8 = (x ++ m).take 8 := by
  rcases Nat.le_total x.length n with h | h
  · rw [List.take_of_length_le h]
  · have h8 : 8 ≤ (x.take n).length := by
      rw [List.length_take]; omega
    rw [List.take_append_of_le_length h8,
      List.take_append_of_le_length (by omega), List.take_take]
    congr 1
    omega

/-- **C8** (corrected).  `_extract_action_items` returns the generated
tasks converted one-to-one (in order, status `"pending"`), followed by the
first 3 matches **of each of the two** text patterns (`matches[:3]` is
applied per pattern, so up to 6 text-derived items, not 3), the whole list
capped at 8 entries. -/
theorem extract_action_items_structure (oracle : RegexOracle) (t : String)
    (tasks : List TaskRecord) :
    extract_action_items oracle t tasks =
      (tasks.map taskToActionItem ++
        (((oracle.actionFindall t).1.take 3).map textActionItem ++
         ((oracle.actionFindall t).2.take 3).map textActionItem)).take 8 ∧
    (extract_action_items oracle t tasks).length ≤ 8 := by
  constructor
  · show (extract_action_items_core tasks _) = _
    unfold extract_action_items_core
    simp only [List.foldl_cons, List.foldl_nil]
    rw [actionTextLoop_eq, actionTextLoop_eq, List.take_take]
    have hmin : min 8 (max ((tasks.map taskToActionItem ++
        ((oracle.actionFindall t).1.take 3).map textActionItem).take
          (max (tasks.map taskToActionItem).length 8)).length 8) = 8 := by
      omega
    rw [hmin, take8_after_take _ _ _ (Nat.le_max_right _ _),
      List.append_assoc]
  · exact List.length_take_le 8 _

/-- A transcript on which the two action-item regex patterns of
`_extract_action_items` each produce three matches:

pattern `(?:action item|to-do|task):\s*([^.!?\n]{15,80})` captures the
three phrases after `"action item: "`, and pattern
`(?:please|need to|should|must)\s+([^.!?\n]{15,80})` captures the three
phrases after `"please "`. -/
def actionDemoTranscript : String :=
  "action item: prepare the quarterly report\n" ++
  "action item: update the customer records\n" ++
  "action item: schedule the next team sync\n" ++
  "please review the attached shipping document\n" ++
  "please confirm the meeting time tomorrow\n" ++
  "please send over the updated invoice today"

/-- Oracle returning exactly the regex matches of the two action patterns
on `actionDemoTranscript` (and nothing anywhere else). -/
def actionDemoOracle : RegexOracle :=
  { staffFindall := fun _ => ([], []),
    dateSearch := fun _ => (none, none, none),
    decisionFindall := fun _ => ([], [], []),
    actionFindall := fun t =>
      if t = actionDemoTranscript then
        (["prepare the quarterly report", "update the customer records",
          "schedule the next team sync"],
         ["review the attached shipping document",
          "confirm the meeting time tomorrow",
          "send over the updated invoice today"])
      else ([], []),
    followUpFindall := fun _ => ([], []),
    nextMeetingSearch := fun _ => (none, none, none) }

set_option maxRecDepth 4096 in
/-- Counterexample to C8 as stated: with an empty task list, the transcript
above yields **6** text-derived action items (3 per pattern), refuting the
claimed cap of "at most 3 additional items". -/
theorem action_items_six_text_matches :
    (extract_action_items actionDemoOracle actionDemoTranscript []).length = 6 ∧
    ¬ (extract_action_items actionDemoOracle actionDemoTranscript []).length ≤ 3 := by
  constructor <;> decide

/-! ## C4: churn warning lines in the executive summary -/

/-- The head character survives appending on the right. -/
lemma head?_append (a b : String) (c : Char) (h : a.data.head? = some c) :
    (a ++ b).data.head? = some c := by
  rw [String.data_append]
  cases ha : a.data with
  | nil => rw [ha] at h; cases h
  | cons y ys =>
    rw [ha] at h
    simpa using h

/-- The first four characters of `(lit ++ x) ++ y` are those of `lit` when
`lit` has at least four. -/
lemma take4_append2 (lit x y : String) (h : 4 ≤ lit.data.length) :
    ((lit ++ x) ++ y).data.take 4 = lit.data.take 4 := by
  have h' : 4 ≤ (lit ++ x).data.length := by
    rw [String.data_append, List.length_append]; omega
  rw [String.data_append, List.take_append_of_le_length h',
    String.data_append, List.take_append_of_le_length h]

/-- The CRITICAL line starts like its literal prefix. -/
lemma critical_take4 (c : Int) :
    (criticalPart c).data.take 4 = "⚠️ CRITICAL: ".data.take 4 :=
  take4_append2 _ _ _ (by decide)

/-- The WARNING line starts like its literal prefix. -/
lemma warning_take4 (c : Int) :
    (warningPart c).data.take 4 = "⚠️ WARNING: ".data.take 4 :=
  take4_append2 _ _ _ (by decide)

/-- The CRITICAL and WARNING summary lines are never equal. -/
lemma critical_ne_warning (c c' : Int) : criticalPart c ≠ warningPart c' := by
  intro he
  have h := congrArg (fun s => s.data.take 4) he
  simp only [critical_take4, warning_take4] at h
  exact absurd h (by decide)

/-- A string starting with `'⚠'` lies in the summary-parts list iff it
lies in the churn-warning segment: all other segments start with a
different character. -/
lemma mem_summary_parts_iff (t : String) (ex : ExtractedData)
    (tl : List SentimentPoint) (c : Int) (x : String)
    (hx : x.data.head? = some '⚠') :
    (x ∈ summary_parts t ex tl c ↔
      x ∈ (if c > 70 then [criticalPart c]
           else if c > 50 then [warningPart c] else [])) := by
  have h1 : ∀ y : String, x ≠ ("Customer " ++ y) ++ " contacted support" := by
    intro y he
    rw [he, head?_append ("Customer " ++ y) " contacted support" 'C'
      (head?_append "Customer " y 'C' rfl)] at hx
    exact absurd hx (by decide)
  have h2 : ∀ y : String, x ≠ ("with " ++ y) ++ " sentiment" := by
    intro y he
    rw [he, head?_append ("with " ++ y) " sentiment" 'w'
      (head?_append "with " y 'w' rfl)] at hx
    exact absurd hx (by decide)
  have h3 : ∀ y : String, x ≠ "regarding: " ++ y := by
    intro y he
    rw [he, head?_append "regarding: " y 'r' rfl] at hx
    exact absurd hx (by decide)
  have h5 : x ≠ "Refund processed" := by
    intro he; rw [he] at hx; exact absurd hx (by decide)
  have h6 : x ≠ "escalated to supervisor" := by
    intro he; rw [he] at hx; exact absurd hx (by decide)
  have hs1 : x ∉ (if truthy ex.contact_name then
      [("Customer " ++ ex.contact_name.getD "") ++ " contacted support"]
      else []) := by
    split
    · simp only [List.mem_singleton]; exact h1 _
    · simp
  have hs3 : x ∉ (if truthy ex.summary then
      ["regarding: " ++ pyTake (ex.summary.getD "") 100] else []) := by
    split
    · simp only [List.mem_singleton]; exact h3 _
    · simp
  have hs5 : x ∉ (if hasSub (pyLower t) "refund" then
      ["Refund processed"] else []) := by
    split
    · simp only [List.mem_singleton]; exact h5
    · simp
  have hs6 : x ∉ (if hasSub (pyLower t) "supervisor" then
      ["escalated to supervisor"] else []) := by
    split
    · simp only [List.mem_singleton]; exact h6
    · simp
  cases tl with
  | nil =>
    simp only [summary_parts, List.mem_append]
    constructor
    · rintro (((((h | h) | h) | h) | h) | h)
      · exact absurd h hs1
      · exact absurd h (List.not_mem_nil x)
      · exact absurd h hs3
      · exact h
      · exact absurd h hs5
      · exact absurd h hs6
    · intro h
      exact Or.inl (Or.inl (Or.inr h))
  | cons p tl' =>
    have hs2 : x ∉ [("with " ++ p.sentiment) ++ " sentiment"] := by
      simp only [List.mem_singleton]; exact h2 _
    simp only [summary_parts, List.mem_append]
    constructor
    · rintro (((((h | h) | h) | h) | h) | h)
      · exact absurd h hs1
      · exact absurd h hs2
      · exact absurd h hs3
      · exact h
      · exact absurd h hs5
      · exact absurd h hs6
    · intro h
      exact Or.inl (Or.inl (Or.inr h))

/-- **C4** (corrected).  The executive summary is the dot-joined parts
list, and the churn-probability warning part obeys **strict** thresholds:
the CRITICAL line is present iff churn > 70 and the WARNING line is
present iff 50 < churn ≤ 70 — so at churn exactly 70 the summary carries
the WARNING line (not CRITICAL, as claimed) and at exactly 50 it carries
no warning line at all. -/
theorem summary_churn_warning_thresholds (t : String) (ex : ExtractedData)
    (tl : List SentimentPoint) (risks : List String) (c : Int) :
    generate_executive_summary t ex tl risks c =
      pyJoinDot (summary_parts t ex tl c) ++ "." ∧
    (criticalPart c ∈ summary_parts t ex tl c ↔ 70 < c) ∧
    (warningPart c ∈ summary_parts t ex tl c ↔ 50 < c ∧ c ≤ 70) := by
  have hcrit : (criticalPart c).data.head? = some '⚠' := by
    unfold criticalPart
    exact head?_append _ _ '⚠' (head?_append _ _ '⚠' rfl)
  have hwarn : (warningPart c).data.head? = some '⚠' := by
    unfold warningPart
    exact head?_append _ _ '⚠' (head?_append _ _ '⚠' rfl)
  refine ⟨rfl, ?_, ?_⟩
  · rw [mem_summary_parts_iff t ex tl c _ hcrit]
    split_ifs with hc1 hc2
    · exact ⟨fun _ => hc1, fun _ => List.mem_singleton.mpr rfl⟩
    · simp only [List.mem_singleton]
      exact ⟨fun h => absurd h (critical_ne_warning c c),
             fun h => absurd h hc1⟩
    · simp only [List.not_mem_nil, false_iff]
      exact hc1
  · rw [mem_summary_parts_iff t ex tl c _ hwarn]
    split_ifs with hc1 hc2
    · simp only [List.mem_singleton]
      constructor
      · intro h; exact absurd h.symm (critical_ne_warning c c)
      · intro h; omega
    · constructor
      · intro _; exact ⟨hc2, by omega⟩
      · intro _; exact List.mem_singleton.mpr rfl
    · simp only [List.not_mem_nil, false_iff]
      omega

/-- Counterexample to C4 as stated: at churn score exactly 70 the summary
carries the WARNING line and not the CRITICAL line, and at exactly 50 it
carries no churn warning part. -/
theorem summary_boundary_70_50 :
    generate_executive_summary "" {} [] [] 70 =
      "⚠️ WARNING: 70% churn probability." ∧
    criticalPart 70 ∉ summary_parts "" ({} : ExtractedData) [] 70 ∧
    summary_parts "" ({} : ExtractedData) [] 50 = [] := by
  refine ⟨?_, ?_, ?_⟩ <;> decide

/-! ## C3: the empty transcript -/

/-- **C3** (corrected).  With extraction yielding all-default fields and
the regex patterns finding nothing on the empty string (none of them can
match it), `analyze` on the empty transcript succeeds and returns an
`AgentAnalysis` whose sequence fields are all empty and whose churn
probability is the baseline 50.0 — but its risk level is `"medium"`, not
the claimed `"low"`: the ladder's `churn > 30` branch fires at the
baseline score. -/
theorem analyze_empty_transcript_defaults (oracle : RegexOracle)
    (extract : String → ExtractedData) (context : String)
    (hex : extract "" = {})
    (h1 : oracle.staffFindall "" = ([], []))
    (h3 : oracle.decisionFindall "" = ([], [], []))
    (h4 : oracle.actionFindall "" = ([], []))
    (h5 : oracle.followUpFindall "" = ([], [])) :
    (analyze_transcript oracle extract "" context).sentiment_timeline = [] ∧
    detect_risks "" {} = [] ∧
    (analyze_transcript oracle extract "" context).insights = [] ∧
    (analyze_transcript oracle extract "" context).contacts_identified = [] ∧
    (analyze_transcript oracle extract "" context).deals_identified = [] ∧
    (analyze_transcript oracle extract "" context).tasks_to_create = [] ∧
    (analyze_transcript oracle extract "" context).key_points = [] ∧
    (analyze_transcript oracle extract "" context).decisions_made = [] ∧
    (analyze_transcript oracle extract "" context).action_items = [] ∧
    (analyze_transcript oracle extract "" context).follow_up_items = [] ∧
    (analyze_transcript oracle extract "" context).churn_probability = 50 ∧
    (analyze_transcript oracle extract "" context).risk_level = "medium" := by
  refine ⟨?_, by decide, ?_, ?_, ?_, ?_, ?_, ?_, ?_, ?_, ?_, ?_⟩ <;>
    simp only [analyze_transcript, extract_decisions, extract_action_items,
      extract_follow_ups, hex, h1, h3, h4, h5] <;> rfl

/-- The oracle for transcripts on which every regex family finds
nothing (as on the empty string). -/
def emptyOracle : RegexOracle :=
  { staffFindall := fun _ => ([], []),
    dateSearch := fun _ => (none, none, none),
    decisionFindall := fun _ => ([], [], []),
    actionFindall := fun _ => ([], []),
    followUpFindall := fun _ => ([], []),
    nextMeetingSearch := fun _ => (none, none, none) }

/-- Counterexample to C3 as stated: on the empty transcript the churn
score stays at the baseline 50, and `50 > 30` makes the risk ladder land
on `"medium"`, not the claimed `"low"`. -/
theorem analyze_empty_risk_level_not_low :
    (analyze_transcript emptyOracle (fun _ => {}) ""
      "customer_service").risk_level = "medium" ∧
    (analyze_transcript emptyOracle (fun _ => {}) ""
      "customer_service").risk_level ≠ "low" := by
  constructor <;> decide

/-- Witness for the empty-transcript theorem at the concrete all-empty
oracle and all-default extraction function. -/
theorem analyze_empty_transcript_defaults_witness :
    ((fun _ => ({} : ExtractedData)) "" = ({} : ExtractedData)) ∧
    (analyze_transcript emptyOracle (fun _ => {}) ""
      "sales").churn_probability = 50 ∧
    (analyze_transcript emptyOracle (fun _ => {}) ""
      "sales").risk_level = "medium" :=
  ⟨rfl,
   (analyze_empty_transcript_defaults emptyOracle (fun _ => {}) "sales"
     rfl rfl rfl rfl rfl).2.2.2.2.2.2.2.2.2.2.1,
   (analyze_empty_transcript_defaults emptyOracle (fun _ => {}) "sales"
     rfl rfl rfl rfl rfl).2.2.2.2.2.2.2.2.2.2.2⟩

end CRMAgent
